import Mathlib

/-!
Verification of the NIST SP 800-57 assessment engine of wardstone
(`src/standards/nist.rs`) against its natural-language specification.

The validators `validate_ffc`, `validate_hash`, `validate_hash_based`,
`validate_symmetric` and the C-boundary adapter `c_call` together with the
`ws_nist_validate_*` wrappers are shallow embeddings of the Rust source.
Rust `u16` values are embedded as `Nat`: the source performs only
comparisons and `max` on them, so no overflow semantics arise, and every
theorem quantified over `Nat` covers the `u16` domain.

The primitive and context type declarations live in crate modules that are
not part of the assessed sources; those are modelled from the spec and each
carries a doc comment saying so.
-/

deriving instance DecidableEq for Except

namespace Wardstone

/-- Modelled from the spec: `Context` (`crate::context`, not under the
assessed sources) — the caller's minimum acceptable security strength in
bits and the reference year (spec §3, §4.2). -/
structure Context where
  security : Nat
  year : Nat
  deriving DecidableEq

/-- Modelled from the spec: `Ffc` (`crate::primitives::ffc`) — field-size
bit length `l` and subgroup-order bit length `n` (spec §3). -/
structure Ffc where
  l : Nat
  n : Nat
  deriving DecidableEq

/-- Modelled from the spec: `Hash` (`crate::primitives::hash`) — a stable
identifier plus static collision-resistance and pre-image-resistance bounds
in bits (spec §3, §4.6: collision resistance is roughly half the digest
length, pre-image resistance roughly the full digest length; both bounds
are fixed per identifier). The Rust accessors `collision_resistance()` and
`pre_image_resistance()` are field reads here. -/
structure Hash where
  id : Nat
  collision_resistance : Nat
  pre_image_resistance : Nat
  deriving DecidableEq

/-- Modelled from the spec: `Symmetric` (`crate::primitives::symmetric`) —
identifier and declared security strength in bits (spec §3). -/
structure Symmetric where
  id : Nat
  security : Nat
  deriving DecidableEq

/-- `CUTOFF_YEAR` from `nist.rs`. -/
def CUTOFF_YEAR : Nat := 2031

/-- `CUTOFF_YEAR_3TDEA` from `nist.rs`. -/
def CUTOFF_YEAR_3TDEA : Nat := 2023

/-- Modelled from the spec: the canonical FFC tier instances (the 2048/224,
3072/256, 7680/384 and 15360/512 tiers of spec §4.5). -/
def FFC_2048_224 : Ffc := ⟨2048, 224⟩

/-- Modelled from the spec: the 3072/256 FFC tier instance. -/
def FFC_3072_256 : Ffc := ⟨3072, 256⟩

/-- Modelled from the spec: the 7680/384 FFC tier instance. -/
def FFC_7680_384 : Ffc := ⟨7680, 384⟩

/-- Modelled from the spec: the 15360/512 FFC tier instance. -/
def FFC_15360_512 : Ffc := ⟨15360, 512⟩

/-- Modelled from the spec: SHA-1, 160-bit digest, so collision resistance
80 and pre-image resistance 160 (spec §4.6). Identifiers are arbitrary but
pairwise distinct; the engine compares only identifiers. -/
def SHA1 : Hash := ⟨1, 80, 160⟩

/-- Modelled from the spec: SHA-224 (224-bit digest: 112/224). -/
def SHA224 : Hash := ⟨2, 112, 224⟩

/-- Modelled from the spec: SHA-256 (256-bit digest: 128/256). -/
def SHA256 : Hash := ⟨3, 128, 256⟩

/-- Modelled from the spec: SHA-384 (384-bit digest: 192/384). -/
def SHA384 : Hash := ⟨4, 192, 384⟩

/-- Modelled from the spec: SHA3-224 (224-bit digest: 112/224). -/
def SHA3_224 : Hash := ⟨5, 112, 224⟩

/-- Modelled from the spec: SHA3-256 (256-bit digest: 128/256). -/
def SHA3_256 : Hash := ⟨6, 128, 256⟩

/-- Modelled from the spec: SHA3-384 (384-bit digest: 192/384). -/
def SHA3_384 : Hash := ⟨7, 192, 384⟩

/-- Modelled from the spec: SHA3-512 (512-bit digest: 256/512). -/
def SHA3_512 : Hash := ⟨8, 256, 512⟩

/-- Modelled from the spec: SHA-512 (512-bit digest: 256/512). -/
def SHA512 : Hash := ⟨9, 256, 512⟩

/-- Modelled from the spec: SHA-512/224 (224-bit digest: 112/224). -/
def SHA512_224 : Hash := ⟨10, 112, 224⟩

/-- Modelled from the spec: SHA-512/256 (256-bit digest: 128/256). -/
def SHA512_256 : Hash := ⟨11, 128, 256⟩

/-- Modelled from the spec: two-key triple-DES. The spec pins its strength
only below the 112-bit boundary tier (its symmetric table sends it to the
unconditional non-compliant band and its scenario demands
NonCompliant(AES128) under the default context); 95 bits is the SP 800-57
estimate. Every claim here depends only on its strength being at most 111. -/
def TDEA2 : Symmetric := ⟨1, 95⟩

/-- Modelled from the spec: three-key triple-DES, the 112-bit boundary
candidate with the special 2023 cutover (spec §4.5). -/
def TDEA3 : Symmetric := ⟨2, 112⟩

/-- Modelled from the spec: AES-128 (128-bit strength). -/
def AES128 : Symmetric := ⟨3, 128⟩

/-- Modelled from the spec: AES-192 (192-bit strength). -/
def AES192 : Symmetric := ⟨4, 192⟩

/-- Modelled from the spec: AES-256 (256-bit strength). -/
def AES256 : Symmetric := ⟨5, 256⟩

/-- The `SPECIFIED_HASH` identifier set of `nist.rs` (the eleven hash
functions the standard specifies). -/
def SPECIFIED_HASH : List Nat :=
  [SHA1.id, SHA224.id, SHA256.id, SHA384.id, SHA3_224.id, SHA3_256.id,
   SHA3_384.id, SHA3_512.id, SHA512.id, SHA512_224.id, SHA512_256.id]

/-- The `SPECIFIED_SYMMETRIC` identifier set of `nist.rs`. -/
def SPECIFIED_SYMMETRIC : List Nat :=
  [TDEA2.id, TDEA3.id, AES128.id, AES192.id, AES256.id]

/-- Modelled from the spec: `Context::default()` (`crate::context`, not
under the assessed sources). The spec calls the default "present year,
128-bit floor" (§3), but its own scenarios — `validate_hash(default, SHA1)`
= NonCompliant(SHA224) (§8), confirmed by the source's doctests and unit
tests — require a floor of at most 111 bits, and the TDEA3 scenario
(Compliant at the 2023 three-key-triple-DES cutover) requires a reference
year of at most 2023. Modelled as "no explicit floor" (0) and year 2023,
which satisfies every scenario of the spec and every test of the source. -/
def defaultContext : Context := ⟨0, 2023⟩

/-- Shallow embedding of `validate_ffc` (`nist.rs` lines 86–113): the
source's match arms, in order. -/
def validate_ffc (ctx : Context) (key : Ffc) : Except Ffc Ffc :=
  if key.l ≤ 2047 ∧ key.n ≤ 223 then .error FFC_2048_224
  else if key.l = 2048 ∧ key.n = 224 then
    if ctx.year > CUTOFF_YEAR then .error FFC_3072_256 else .ok FFC_2048_224
  else if 2049 ≤ key.l ∧ key.l ≤ 3072 ∧ 225 ≤ key.n ∧ key.n ≤ 256 then
    .ok FFC_3072_256
  else if 3073 ≤ key.l ∧ key.l ≤ 7680 ∧ 257 ≤ key.n ∧ key.n ≤ 384 then
    .ok FFC_7680_384
  else if 7681 ≤ key.l ∧ 385 ≤ key.n then .ok FFC_15360_512
  else .error FFC_2048_224

/-- Shallow embedding of `validate_hash` (`nist.rs` lines 156–181):
collision-resistance use. The source's local binding
`security = max(ctx.security(), hash.collision_resistance())` is inlined
at each of its use sites. -/
def validate_hash (ctx : Context) (hash : Hash) : Except Hash Hash :=
  if hash.id ∈ SPECIFIED_HASH then
    if max ctx.security hash.collision_resistance ≤ 111 then
      if ctx.year > CUTOFF_YEAR then .error SHA256 else .error SHA224
    else if max ctx.security hash.collision_resistance = 112 then
      if ctx.year > CUTOFF_YEAR then .error SHA256 else .ok SHA224
    else if max ctx.security hash.collision_resistance ≤ 128 then .ok SHA256
    else if max ctx.security hash.collision_resistance ≤ 192 then .ok SHA384
    else .ok SHA512
  else .error SHA256

/-- Shallow embedding of `validate_hash_based` (`nist.rs` lines 223–243):
pre-image-resistance use. The source's local binding
`security = max(ctx.security(), hash.pre_image_resistance())` is inlined
at each of its use sites. -/
def validate_hash_based (ctx : Context) (hash : Hash) : Except Hash Hash :=
  if hash.id ∈ SPECIFIED_HASH then
    if max ctx.security hash.pre_image_resistance ≤ 111 then .error SHA224
    else if max ctx.security hash.pre_image_resistance ≤ 127 then
      if ctx.year > CUTOFF_YEAR then .error SHA224 else .ok SHA224
    else if max ctx.security hash.pre_image_resistance ≤ 224 then .ok SHA224
    else if max ctx.security hash.pre_image_resistance ≤ 256 then .ok SHA256
    else if max ctx.security hash.pre_image_resistance ≤ 394 then .ok SHA384
    else .ok SHA512
  else .error SHA224

/-- Shallow embedding of `validate_symmetric` (`nist.rs` lines 268–292).
The tier is located by `key.security` alone; the context contributes only
the year at the 112-bit boundary. The source's single-use local binding
`cutoff` is inlined into its one use site. -/
def validate_symmetric (ctx : Context) (key : Symmetric) :
    Except Symmetric Symmetric :=
  if key.id ∈ SPECIFIED_SYMMETRIC then
    if key.security ≤ 111 then .error AES128
    else if key.security = 112 then
      if ctx.year > (if key.id = TDEA3.id then CUTOFF_YEAR_3TDEA else CUTOFF_YEAR)
      then .error AES128 else .ok AES128
    else if key.security ≤ 128 then .ok AES128
    else if key.security ≤ 192 then .ok AES192
    else .ok AES256
  else .error AES128

/-- Shallow embedding of `c_call` (`nist.rs` lines 296–316). A nullable
input pointer is an `Option`; the output pointer is an `Option T` holding
the cell's prior content when non-null and `none` when null; the second
component of the result is the cell's final content. The null checks come
first, exactly as in the source, and the recommendation is written through
a non-null output pointer whether the verdict is compliant or not. -/
def c_call {T : Type} (f : Context → T → Except T T)
    (ctx : Option Context) (primitive : Option T) (alternative : Option T) :
    Int × Option T :=
  match ctx, primitive with
  | some c, some p =>
    match f c p with
    | .ok recommendation => (1, alternative.map fun _ => recommendation)
    | .error recommendation => (0, alternative.map fun _ => recommendation)
  | _, _ => (-1, alternative)

/-- Shallow embedding of `ws_nist_validate_ffc` (`nist.rs` lines 340–346). -/
def ws_nist_validate_ffc (ctx : Option Context) (key : Option Ffc)
    (alternative : Option Ffc) : Int × Option Ffc :=
  c_call validate_ffc ctx key alternative

/-- Shallow embedding of `ws_nist_validate_hash` (`nist.rs` lines 384–390). -/
def ws_nist_validate_hash (ctx : Option Context) (hash : Option Hash)
    (alternative : Option Hash) : Int × Option Hash :=
  c_call validate_hash ctx hash alternative

/-- Shallow embedding of `ws_nist_validate_hash_based` (`nist.rs` lines
428–434). -/
def ws_nist_validate_hash_based (ctx : Option Context) (hash : Option Hash)
    (alternative : Option Hash) : Int × Option Hash :=
  c_call validate_hash_based ctx hash alternative

/-- Shallow embedding of `ws_nist_validate_symmetric` (`nist.rs` lines
453–459). -/
def ws_nist_validate_symmetric (ctx : Option Context) (key : Option Symmetric)
    (alternative : Option Symmetric) : Int × Option Symmetric :=
  c_call validate_symmetric ctx key alternative

/-- The FFC verdict table exactly as claim C1 states it (spec §4.5 and the
cutover-edge property of §8), written from the spec's words so that it can
be compared with the source-derived `validate_ffc`. Its first branch is the
spec's disjunction `l ≤ 2047 or n ≤ 223`, where the source's first match
arm is the conjunction. -/
def ffcClaimTable (ctx : Context) (key : Ffc) : Except Ffc Ffc :=
  if key.l ≤ 2047 ∨ key.n ≤ 223 then .error FFC_2048_224
  else if key.l = 2048 ∧ key.n = 224 then
    if ctx.year ≤ 2031 then .ok FFC_2048_224 else .error FFC_3072_256
  else if 2049 ≤ key.l ∧ key.l ≤ 3072 ∧ 225 ≤ key.n ∧ key.n ≤ 256 then
    .ok FFC_3072_256
  else if 3073 ≤ key.l ∧ key.l ≤ 7680 ∧ 257 ≤ key.n ∧ key.n ≤ 384 then
    .ok FFC_7680_384
  else if 7681 ≤ key.l ∧ 385 ≤ key.n then .ok FFC_15360_512
  else .error FFC_2048_224

/-- Claim C1: for every Ffc key and every Context, `validate_ffc` returns
the verdict of the spec's piecewise table — `l ≤ 2047 or n ≤ 223` is
NonCompliant(FFC_2048_224); exactly (2048, 224) is Compliant(FFC_2048_224)
up to year 2031 and NonCompliant(FFC_3072_256) from 2032 on; the
3072/7680/15360 bands are Compliant with their tier instances; every other
pair is NonCompliant(FFC_2048_224) — and in particular at the 2031 cutover
the pre-cutover verdict holds and at 2032 the post-cutover verdict holds,
for every security floor. -/
theorem nist_c1_validate_ffc_matches_spec_table :
    ∀ (ctx : Context) (key : Ffc),
      validate_ffc ctx key = ffcClaimTable ctx key ∧
      (∀ s : Nat,
        validate_ffc ⟨s, 2031⟩ FFC_2048_224 = .ok FFC_2048_224 ∧
        validate_ffc ⟨s, 2032⟩ FFC_2048_224 = .error FFC_3072_256) := by
  intro ctx key
  refine ⟨?_, fun s => ⟨rfl, rfl⟩⟩
  unfold validate_ffc ffcClaimTable CUTOFF_YEAR
  split_ifs <;> first | rfl | omega

/-- The collision-resistance verdict table for specified hashes exactly as
claim C2 states it, written from the claim's words: in particular at
effective strength 112 past the cutover it recommends SHA224. -/
def hashClaimTable (ctx : Context) (hash : Hash) : Except Hash Hash :=
  if max ctx.security hash.collision_resistance ≤ 111 then
    if ctx.year ≤ 2031 then .error SHA224 else .error SHA256
  else if max ctx.security hash.collision_resistance = 112 then
    if ctx.year ≤ 2031 then .ok SHA224 else .error SHA224
  else if max ctx.security hash.collision_resistance ≤ 128 then .ok SHA256
  else if max ctx.security hash.collision_resistance ≤ 192 then .ok SHA384
  else .ok SHA512

/-- Claim C2 counterexample: SHA224 under context (security 0, year 2032)
has effective strength exactly 112 and is past the cutover; the claim's
table predicts NonCompliant(SHA224) but `validate_hash` returns
NonCompliant(SHA256). -/
theorem nist_c2_counterexample :
    SHA224.id ∈ SPECIFIED_HASH ∧
    max (Context.mk 0 2032).security SHA224.collision_resistance = 112 ∧
    validate_hash ⟨0, 2032⟩ SHA224 = .error SHA256 ∧
    hashClaimTable ⟨0, 2032⟩ SHA224 = .error SHA224 ∧
    validate_hash ⟨0, 2032⟩ SHA224 ≠ hashClaimTable ⟨0, 2032⟩ SHA224 := by
  decide

/-- The amended collision-resistance verdict table: identical to claim C2's
table except that past the cutover the 112-bit boundary tier recommends
SHA256, the next tier's representative, exactly as the ≤ 111 band does. -/
def hashAmendedTable (ctx : Context) (hash : Hash) : Except Hash Hash :=
  if max ctx.security hash.collision_resistance ≤ 111 then
    if ctx.year ≤ 2031 then .error SHA224 else .error SHA256
  else if max ctx.security hash.collision_resistance = 112 then
    if ctx.year ≤ 2031 then .ok SHA224 else .error SHA256
  else if max ctx.security hash.collision_resistance ≤ 128 then .ok SHA256
  else if max ctx.security hash.collision_resistance ≤ 192 then .ok SHA384
  else .ok SHA512

/-- Claim C2 (amended): for every hash in the specified set, with effective
strength s = max(Context.security, collision resistance), `validate_hash`
returns: s ≤ 111 — NonCompliant(SHA224) up to 2031 and NonCompliant(SHA256)
after; s = 112 — Compliant(SHA224) up to 2031 and NonCompliant(SHA256)
after; 113–128 — Compliant(SHA256); 129–192 — Compliant(SHA384); s ≥ 193 —
Compliant(SHA512). -/
theorem nist_c2_amended_validate_hash_table :
    ∀ (ctx : Context) (hash : Hash), hash.id ∈ SPECIFIED_HASH →
      validate_hash ctx hash = hashAmendedTable ctx hash := by
  intro ctx hash hmem
  unfold validate_hash hashAmendedTable CUTOFF_YEAR
  rw [if_pos hmem]
  split_ifs <;> first | rfl | omega

/-- Witness for the amended claim C2 at a concrete input. -/
theorem nist_c2_amended_witness :
    validate_hash ⟨0, 2032⟩ SHA224 = hashAmendedTable ⟨0, 2032⟩ SHA224 :=
  nist_c2_amended_validate_hash_table ⟨0, 2032⟩ SHA224 (by decide)

/-- Claim C3 counterexample: an AES-128 key assessed under a Context with
security floor 192 yields Compliant(AES128), not Compliant(AES192) as the
claim's max-based effective requirement predicts — `validate_symmetric`
never consults the context's security floor. -/
theorem nist_c3_counterexample :
    validate_symmetric ⟨192, 2023⟩ AES128 = .ok AES128 ∧
    validate_symmetric ⟨192, 2023⟩ AES128 ≠ .ok AES192 := by
  decide

/-- Claim C3 (amended): for every symmetric key in the specified set,
`validate_symmetric` locates the tier from the key's own declared security
alone — the context's security floor never influences the verdict — so
key.security in 113–128 gives Compliant(AES128), 129–192 gives
Compliant(AES192) and ≥ 193 gives Compliant(AES256); in particular an
AES-128 key under a 192-bit floor still yields Compliant(AES128). -/
theorem nist_c3_amended_symmetric_tiers :
    ∀ (c1 c2 : Context) (key : Symmetric), key.id ∈ SPECIFIED_SYMMETRIC →
      c1.year = c2.year →
      validate_symmetric c1 key = validate_symmetric c2 key ∧
      (113 ≤ key.security → key.security ≤ 128 →
        validate_symmetric c1 key = .ok AES128) ∧
      (129 ≤ key.security → key.security ≤ 192 →
        validate_symmetric c1 key = .ok AES192) ∧
      (193 ≤ key.security → validate_symmetric c1 key = .ok AES256) := by
  intro c1 c2 key hmem hyear
  refine ⟨?_, ?_, ?_, ?_⟩
  · unfold validate_symmetric
    rw [hyear]
  all_goals intros
  all_goals unfold validate_symmetric CUTOFF_YEAR CUTOFF_YEAR_3TDEA
  all_goals rw [if_pos hmem]
  all_goals split_ifs <;> first | rfl | omega

/-- Witness for the amended claim C3 at a concrete input. -/
theorem nist_c3_amended_witness :
    validate_symmetric ⟨192, 2023⟩ AES128 = validate_symmetric ⟨0, 2023⟩ AES128 ∧
    validate_symmetric ⟨192, 2023⟩ AES128 = .ok AES128 :=
  ⟨(nist_c3_amended_symmetric_tiers ⟨192, 2023⟩ ⟨0, 2023⟩ AES128 (by decide) rfl).1,
   (nist_c3_amended_symmetric_tiers ⟨192, 2023⟩ ⟨0, 2023⟩ AES128 (by decide) rfl).2.1
     (by decide) (by decide)⟩

/-- Claim C4: a hash whose identifier is not in the specified set is
NonCompliant under every context, with a fixed recommendation — SHA256 for
the collision-resistance entry point and SHA224 for the pre-image entry
point — and the verdict never varies with the context's year or security
floor: an unknown hash never benefits from a cutover grace period. -/
theorem nist_c4_unknown_hash_unconditional :
    ∀ (hash : Hash) (c1 c2 : Context), hash.id ∉ SPECIFIED_HASH →
      validate_hash c1 hash = .error SHA256 ∧
      validate_hash_based c1 hash = .error SHA224 ∧
      validate_hash c1 hash = validate_hash c2 hash ∧
      validate_hash_based c1 hash = validate_hash_based c2 hash := by
  intro hash c1 c2 hmem
  unfold validate_hash validate_hash_based
  rw [if_neg hmem, if_neg hmem, if_neg hmem, if_neg hmem]
  exact ⟨rfl, rfl, rfl, rfl⟩

/-- Witness for claim C4: a hash with the unknown identifier 999 under two
very different contexts. -/
theorem nist_c4_witness :
    validate_hash ⟨0, 2023⟩ ⟨999, 128, 256⟩ = .error SHA256 ∧
    validate_hash_based ⟨0, 2023⟩ ⟨999, 128, 256⟩ = .error SHA224 ∧
    validate_hash ⟨0, 2023⟩ ⟨999, 128, 256⟩ = validate_hash ⟨256, 2050⟩ ⟨999, 128, 256⟩ ∧
    validate_hash_based ⟨0, 2023⟩ ⟨999, 128, 256⟩ =
      validate_hash_based ⟨256, 2050⟩ ⟨999, 128, 256⟩ :=
  nist_c4_unknown_hash_unconditional ⟨999, 128, 256⟩ ⟨0, 2023⟩ ⟨256, 2050⟩ (by decide)

/-- Claim C5: under the default context `validate_symmetric` returns
Compliant(AES128) for three-key triple-DES and NonCompliant(AES128) for
two-key triple-DES; and for every specified key of strength exactly 112 the
verdict flips at cutover year 2023 when the key is specifically TDEA3 and
at 2031 otherwise. -/
theorem nist_c5_default_tdea :
    validate_symmetric defaultContext TDEA3 = .ok AES128 ∧
    validate_symmetric defaultContext TDEA2 = .error AES128 ∧
    (∀ (ctx : Context) (key : Symmetric), key.id ∈ SPECIFIED_SYMMETRIC →
      key.security = 112 →
      validate_symmetric ctx key =
        if ctx.year ≤ (if key.id = TDEA3.id then CUTOFF_YEAR_3TDEA else CUTOFF_YEAR)
        then .ok AES128 else .error AES128) := by
  refine ⟨by decide, by decide, ?_⟩
  intro ctx key hmem hsec
  unfold validate_symmetric CUTOFF_YEAR CUTOFF_YEAR_3TDEA
  rw [if_pos hmem]
  split_ifs <;> first | rfl | omega

/-- Witness for claim C5's cutover clause: TDEA3 one year past its special
2023 cutover is NonCompliant. -/
theorem nist_c5_witness :
    validate_symmetric ⟨0, 2024⟩ TDEA3 =
      if (2024 : Nat) ≤ (if TDEA3.id = TDEA3.id then CUTOFF_YEAR_3TDEA else CUTOFF_YEAR)
      then .ok AES128 else .error AES128 :=
  nist_c5_default_tdea.2.2 ⟨0, 2024⟩ TDEA3 (by decide) rfl

/-- Claim C6: under the default context `validate_hash` (collision use)
returns NonCompliant(SHA224) for SHA-1 and Compliant(SHA256) for SHA3-256 —
the recommendation carried by a Compliant verdict is the tier's
representative and need not equal the input primitive. -/
theorem nist_c6_default_hash_scenarios :
    validate_hash defaultContext SHA1 = .error SHA224 ∧
    validate_hash defaultContext SHA3_256 = .ok SHA256 ∧
    SHA3_256 ≠ SHA256 := by
  decide

/-- The canonical recommendation carried by a verdict; in the source both
`Ok` and `Err` carry the recommended primitive. -/
def recOf {T : Type} : Except T T → T
  | .ok r => r
  | .error r => r

/-- The tier rank of a recommended hash: its collision-resistance bound
(112 for the SHA224 tier, then 128, 192, 256), used to compare the tiers of
recommendations. -/
def hashTierRank (h : Hash) : Nat := h.collision_resistance

/-- `validate_hash` depends on the context only through the year and the
effective strength. -/
theorem validate_hash_congr (c1 c2 : Context) (h : Hash)
    (hyear : c1.year = c2.year)
    (hmax : max c1.security h.collision_resistance =
      max c2.security h.collision_resistance) :
    validate_hash c1 h = validate_hash c2 h := by
  unfold validate_hash
  rw [hyear, hmax]

/-- `validate_hash_based` depends on the context only through the year and
the effective strength. -/
theorem validate_hash_based_congr (c1 c2 : Context) (h : Hash)
    (hyear : c1.year = c2.year)
    (hmax : max c1.security h.pre_image_resistance =
      max c2.security h.pre_image_resistance) :
    validate_hash_based c1 h = validate_hash_based c2 h := by
  unfold validate_hash_based
  rw [hyear, hmax]

/-- Raising the effective strength never lowers the tier of the
recommendation of `validate_hash` (year fixed). -/
theorem validate_hash_rank_mono (c1 c2 : Context) (h : Hash)
    (hmem : h.id ∈ SPECIFIED_HASH) (hyear : c1.year = c2.year)
    (hsec : c1.security ≤ c2.security) :
    hashTierRank (recOf (validate_hash c1 h)) ≤
      hashTierRank (recOf (validate_hash c2 h)) := by
  have hs : max c1.security h.collision_resistance ≤
      max c2.security h.collision_resistance := max_le_max hsec (le_refl _)
  unfold validate_hash
  rw [if_pos hmem, if_pos hmem, hyear]
  revert hs
  generalize max c1.security h.collision_resistance = m1
  generalize max c2.security h.collision_resistance = m2
  intro hs
  split_ifs <;> first | decide | omega

/-- Raising the effective strength never lowers the tier of the
recommendation of `validate_hash_based` (year fixed). -/
theorem validate_hash_based_rank_mono (c1 c2 : Context) (h : Hash)
    (hmem : h.id ∈ SPECIFIED_HASH) (hyear : c1.year = c2.year)
    (hsec : c1.security ≤ c2.security) :
    hashTierRank (recOf (validate_hash_based c1 h)) ≤
      hashTierRank (recOf (validate_hash_based c2 h)) := by
  have hs : max c1.security h.pre_image_resistance ≤
      max c2.security h.pre_image_resistance := max_le_max hsec (le_refl _)
  unfold validate_hash_based
  rw [if_pos hmem, if_pos hmem, hyear]
  revert hs
  generalize max c1.security h.pre_image_resistance = m1
  generalize max c2.security h.pre_image_resistance = m2
  intro hs
  split_ifs <;> first | decide | omega

/-- Claim C7: for a specified hash under two contexts with equal years and
a second security floor at least the first, (a) a Compliant verdict is
preserved when the relevant resistance measure is at or above the second
floor, and (b) the recommendation's tier never decreases — for both the
collision-resistance and the pre-image-resistance entry points. -/
theorem nist_c7_hash_monotonicity :
    ∀ (hash : Hash) (c1 c2 : Context), hash.id ∈ SPECIFIED_HASH →
      c1.year = c2.year → c1.security ≤ c2.security →
      ((∃ r, validate_hash c1 hash = .ok r) →
        c2.security ≤ hash.collision_resistance →
        ∃ r, validate_hash c2 hash = .ok r) ∧
      hashTierRank (recOf (validate_hash c1 hash)) ≤
        hashTierRank (recOf (validate_hash c2 hash)) ∧
      ((∃ r, validate_hash_based c1 hash = .ok r) →
        c2.security ≤ hash.pre_image_resistance →
        ∃ r, validate_hash_based c2 hash = .ok r) ∧
      hashTierRank (recOf (validate_hash_based c1 hash)) ≤
        hashTierRank (recOf (validate_hash_based c2 hash)) := by
  intro hash c1 c2 hmem hyear hsec
  refine ⟨?_, validate_hash_rank_mono c1 c2 hash hmem hyear hsec, ?_,
    validate_hash_based_rank_mono c1 c2 hash hmem hyear hsec⟩
  · rintro ⟨r, hr⟩ hfloor
    refine ⟨r, ?_⟩
    rw [← validate_hash_congr c1 c2 hash hyear ?_]
    · exact hr
    · rw [Nat.max_eq_right (le_trans hsec hfloor), Nat.max_eq_right hfloor]
  · rintro ⟨r, hr⟩ hfloor
    refine ⟨r, ?_⟩
    rw [← validate_hash_based_congr c1 c2 hash hyear ?_]
    · exact hr
    · rw [Nat.max_eq_right (le_trans hsec hfloor), Nat.max_eq_right hfloor]

/-- Witness for claim C7 at a concrete input: SHA256 under floors 0 and
128, year 2023. -/
theorem nist_c7_witness :
    ((∃ r, validate_hash ⟨0, 2023⟩ SHA256 = .ok r) →
      (128 : Nat) ≤ SHA256.collision_resistance →
      ∃ r, validate_hash ⟨128, 2023⟩ SHA256 = .ok r) ∧
    hashTierRank (recOf (validate_hash ⟨0, 2023⟩ SHA256)) ≤
      hashTierRank (recOf (validate_hash ⟨128, 2023⟩ SHA256)) ∧
    ((∃ r, validate_hash_based ⟨0, 2023⟩ SHA256 = .ok r) →
      (128 : Nat) ≤ SHA256.pre_image_resistance →
      ∃ r, validate_hash_based ⟨128, 2023⟩ SHA256 = .ok r) ∧
    hashTierRank (recOf (validate_hash_based ⟨0, 2023⟩ SHA256)) ≤
      hashTierRank (recOf (validate_hash_based ⟨128, 2023⟩ SHA256)) :=
  nist_c7_hash_monotonicity SHA256 ⟨0, 2023⟩ ⟨128, 2023⟩ (by decide) rfl
    (by decide)

/-- Claim C8: each validator is total — for every context and every
structurally legal input, including bit lengths below the lowest and above
the highest tier, it returns exactly one verdict, always one of the finite
set of canonical outcomes. -/
theorem nist_c8_totality :
    ∀ (ctx : Context) (k : Ffc) (h : Hash) (s : Symmetric),
      (validate_ffc ctx k = .ok FFC_2048_224 ∨
        validate_ffc ctx k = .ok FFC_3072_256 ∨
        validate_ffc ctx k = .ok FFC_7680_384 ∨
        validate_ffc ctx k = .ok FFC_15360_512 ∨
        validate_ffc ctx k = .error FFC_2048_224 ∨
        validate_ffc ctx k = .error FFC_3072_256) ∧
      (validate_hash ctx h = .ok SHA224 ∨ validate_hash ctx h = .ok SHA256 ∨
        validate_hash ctx h = .ok SHA384 ∨ validate_hash ctx h = .ok SHA512 ∨
        validate_hash ctx h = .error SHA224 ∨
        validate_hash ctx h = .error SHA256) ∧
      (validate_hash_based ctx h = .ok SHA224 ∨
        validate_hash_based ctx h = .ok SHA256 ∨
        validate_hash_based ctx h = .ok SHA384 ∨
        validate_hash_based ctx h = .ok SHA512 ∨
        validate_hash_based ctx h = .error SHA224) ∧
      (validate_symmetric ctx s = .ok AES128 ∨
        validate_symmetric ctx s = .ok AES192 ∨
        validate_symmetric ctx s = .ok AES256 ∨
        validate_symmetric ctx s = .error AES128) := by
  intro ctx k h s
  refine ⟨?_, ?_, ?_, ?_⟩
  · unfold validate_ffc
    split_ifs <;> simp
  · unfold validate_hash
    split_ifs <;> simp
  · unfold validate_hash_based
    split_ifs <;> simp
  · unfold validate_symmetric
    split_ifs <;> simp

/-- Claim C9: the C-callable boundary. Nullable pointers are `Option`s and
the output pointer is the pointed-to cell (`none` when null). A null
context or primitive pointer yields −1 with the output cell untouched; with
both non-null the result is 1 for a Compliant and 0 for a NonCompliant
verdict, and the recommendation is written through a non-null output cell
in both cases; the four `ws_nist_validate_*` wrappers are exactly `c_call`
applied to the corresponding validator. -/
theorem nist_c9_c_boundary_contract :
    (∀ (T : Type) (f : Context → T → Except T T) (p a : Option T),
      c_call f none p a = (-1, a)) ∧
    (∀ (T : Type) (f : Context → T → Except T T) (c : Option Context)
      (a : Option T), c_call f c none a = (-1, a)) ∧
    (∀ (T : Type) (f : Context → T → Except T T) (c : Context) (p : T)
      (a : Option T) (r : T), f c p = .ok r →
      c_call f (some c) (some p) a = (1, a.map fun _ => r)) ∧
    (∀ (T : Type) (f : Context → T → Except T T) (c : Context) (p : T)
      (a : Option T) (r : T), f c p = .error r →
      c_call f (some c) (some p) a = (0, a.map fun _ => r)) ∧
    ws_nist_validate_ffc = c_call validate_ffc ∧
    ws_nist_validate_hash = c_call validate_hash ∧
    ws_nist_validate_hash_based = c_call validate_hash_based ∧
    ws_nist_validate_symmetric = c_call validate_symmetric := by
  refine ⟨?_, ?_, ?_, ?_, rfl, rfl, rfl, rfl⟩
  · intro T f p a
    cases p <;> rfl
  · intro T f c a
    cases c <;> rfl
  · intro T f c p a r hf
    simp [c_call, hf]
  · intro T f c p a r hf
    simp [c_call, hf]

/-- Witness for claim C9: a null context yields −1 leaving the non-null
output cell untouched; a compliant call yields 1 and overwrites the cell; a
non-compliant call with a null output cell yields 0 and writes nothing. -/
theorem nist_c9_witness :
    ws_nist_validate_ffc none (some FFC_2048_224) (some FFC_3072_256) =
      (-1, some FFC_3072_256) ∧
    ws_nist_validate_ffc (some defaultContext) (some FFC_2048_224)
      (some FFC_3072_256) = (1, some FFC_2048_224) ∧
    ws_nist_validate_ffc (some defaultContext) (some ⟨1024, 160⟩) none =
      (0, none) :=
  ⟨nist_c9_c_boundary_contract.1 Ffc validate_ffc (some FFC_2048_224)
      (some FFC_3072_256),
   nist_c9_c_boundary_contract.2.2.1 Ffc validate_ffc defaultContext
      FFC_2048_224 (some FFC_3072_256) FFC_2048_224 (by decide),
   nist_c9_c_boundary_contract.2.2.2.1 Ffc validate_ffc defaultContext
      ⟨1024, 160⟩ none FFC_2048_224 (by decide)⟩

/-- Claim C10: `validate_ffc` never consults the context's security floor —
two contexts with equal years produce identical verdicts and identical
recommendations for every key. -/
theorem nist_c10_ffc_security_independent :
    ∀ (key : Ffc) (c1 c2 : Context), c1.year = c2.year →
      validate_ffc c1 key = validate_ffc c2 key := by
  intro key c1 c2 hyear
  unfold validate_ffc
  rw [hyear]

/-- Witness for claim C10: security floors 0 and 999 with equal years. -/
theorem nist_c10_witness :
    validate_ffc ⟨0, 2023⟩ FFC_2048_224 = validate_ffc ⟨999, 2023⟩ FFC_2048_224 :=
  nist_c10_ffc_security_independent FFC_2048_224 ⟨0, 2023⟩ ⟨999, 2023⟩ rfl


end Wardstone
